/-
Verification of dask-geomodeling raster and geometry block semantics.

Shallow embedding of the block `process` / `get_sources_and_requests`
functions from:
  - dask_geomodeling/raster/misc.py   (Classify, Reclassify, Step, Rasterize)
  - dask_geomodeling/geometry/set_operations.py (Difference)
  - dask_geomodeling/geometry/sources.py (GeometryFileSource)
  - dask_geomodeling/geometry/base.py  (SeriesBlock, SetSeriesBlock)

Rasters are embedded as flat lists of integer cell values together with a
no-data sentinel.  Feature frames are embedded as association lists from a
row id to a geometry; the external geometry engine's difference primitive is
an abstract function parameter.
-/
import Mathlib

namespace DaskGeomodeling

/-- A raster response: `{"values": ..., "no_data_value": ...}`.  The values
grid is flattened to a list; cell dtype is embedded as `Int`. -/
structure RasterData where
  values : List Int
  no_data_value : Int
  deriving Repr, DecidableEq

/-! ### Modelled utility functions

`get_uint_dtype` and `get_dtype_max` live in `dask_geomodeling/utils.py`,
which is not among the provided source files; they are modelled from the
spec here. -/

/-- Modelled from the spec: `get_uint_dtype(n)` from `dask_geomodeling.utils`
(absent from src) returns the smallest unsigned integer dtype able to hold
`n` distinct values ("with 254 bin edges, we have 255 bins, and we need 256
possible values to include no_data").  We represent a dtype by its bit
width. -/
def get_uint_dtype (n : Nat) : Nat :=
  if n ≤ 2 ^ 8 then 8
  else if n ≤ 2 ^ 16 then 16
  else if n ≤ 2 ^ 32 then 32
  else 64

/-- Modelled from the spec: `get_dtype_max` from `dask_geomodeling.utils`
(absent from src) returns the maximum representable value of an unsigned
dtype given by its bit width. -/
def get_dtype_max (bits : Nat) : Int :=
  2 ^ bits - 1

/-- Modelled from the spec: `get_dtype_max` applied to a signed integer
dtype (the dtype of the Reclassify target values) gives the maximum signed
value of that width. -/
def get_dtype_max_signed (bits : Nat) : Int :=
  2 ^ (bits - 1) - 1

/-! ### numpy primitives used by the raster blocks -/

/-- `np.diff` on a one-dimensional array: successive differences. -/
def npDiff (l : List Int) : List Int :=
  (l.zip l.tail).map fun p => p.2 - p.1

/-- `np.digitize(x, bins, right)` for ascending `bins`: the index of the
bin that `x` falls into.  With `right = false` the intervals are
left-closed/right-open (`bins[i-1] <= x < bins[i]`), so the result is the
number of bin edges `≤ x`; with `right = true` it is the number of edges
`< x`. -/
def npDigitize (bins : List Int) (right : Bool) (x : Int) : Nat :=
  if right then (bins.filter fun b => decide (b < x)).length
  else (bins.filter fun b => decide (b ≤ x)).length

namespace Classify

/-- The raise condition of `Classify.__init__` on the bin list, transcribed
with Python's operator precedence:
`not np.all(bins_diff > 0) or np.all(bins_diff < 0)` parses as
`(not np.all(bins_diff > 0)) or (np.all(bins_diff < 0))`. -/
def initRaises (bins : List Int) : Bool :=
  (!((npDiff bins).all fun d => decide (d > 0))) ||
    ((npDiff bins).all fun d => decide (d < 0))

/-- `Classify.process`: digitize each cell into its bin index; cells equal
to the input no-data value are set to the fill value, which becomes the
output no-data value. -/
def process (bins : List Int) (right : Bool) (data : RasterData) :
    RasterData :=
  let dtype := get_uint_dtype (bins.length + 2)
  let fillvalue := get_dtype_max dtype
  { values := data.values.map fun x =>
      if x = data.no_data_value then fillvalue
      else (npDigitize bins right x : Int)
    no_data_value := fillvalue }

end Classify

namespace Step

/-- `Step.process`: the boolean index arrays `mask`, `left_index`,
`at_index`, `right_index` are all computed from the unmodified input before
any assignment, and the no-data mask is applied last, so per cell: a
no-data cell stays no-data, otherwise the cell maps to `left`/`at`/`right`
by comparison with `location`. -/
def process (left right location at_ : Int) (data : RasterData) :
    RasterData :=
  { values := data.values.map fun x =>
      if x = data.no_data_value then data.no_data_value
      else if x < location then left
      else if x = location then at_
      else right
    no_data_value := data.no_data_value }

end Step

namespace Reclassify

/-- Insertion of a pair into a key-sorted pair list (used to embed the
`np.argsort`-based sorting of the source/target arrays). -/
def insertPair (p : Int × Int) : List (Int × Int) → List (Int × Int)
  | [] => [p]
  | q :: qs => if p.1 ≤ q.1 then p :: q :: qs else q :: insertPair p qs

/-- Sorting the (source, target) pairs by source value, embedding
`inds = np.argsort(source); source = source[inds]; target = target[inds]`. -/
def sortPairs (l : List (Int × Int)) : List (Int × Int) :=
  l.foldr insertPair []

/-- `np.searchsorted(sorted, x)` (left variant): the number of elements
strictly below `x`.  For an element of a sorted duplicate-free list this is
its index. -/
def searchsorted (l : List Int) (x : Int) : Nat :=
  (l.filter fun b => decide (b < x)).length

/-- `Reclassify.process`: append the (no-data → fill) pair when the no-data
value is not a mapped source value, sort by source value, then remap every
cell that occurs among the source values via sorted lookup; cells not in the
mapping become `fillvalue` when `select` and pass through unchanged
otherwise.  The returned no-data value is `fillvalue` (computed by the node
from the target dtype and shipped in `process_kwargs`). -/
def process (data : List (Int × Int)) (select : Bool) (fillvalue : Int)
    (store : RasterData) : RasterData :=
  let source := data.map Prod.fst
  let target := data.map Prod.snd
  let augmented :=
    if store.no_data_value ∈ source then source.zip target
    else (source ++ [store.no_data_value]).zip (target ++ [fillvalue])
  let sorted := sortPairs augmented
  let s := sorted.map Prod.fst
  let t := sorted.map Prod.snd
  { values := store.values.map fun x =>
      if x ∈ s then t.getD (searchsorted s x) 0
      else if select then fillvalue else x
    no_data_value := fillvalue }

end Reclassify

namespace Rasterize

/-- The bbox validation and `min_size` computation of
`Rasterize.get_sources_and_requests` in `"vals"` mode: a point bbox
(`x2 == x1 and y2 == y1`) gives `min_size = None`; a proper bbox
(`x1 < x2 and y1 < y2`) gives the minimum cell size; anything else raises
`ValueError` before any (source, request) pair is built, so B is never
consulted.  `.ok m` stands for proceeding with `min_size = m` in the
geometry request. -/
def getSourcesAndRequestsVals (x1 y1 x2 y2 width height : Rat) :
    Except String (Option Rat) :=
  if x2 = x1 ∧ y2 = y1 then .ok none
  else if x1 < x2 ∧ y1 < y2 then
    .ok (some (min ((x2 - x1) / width) ((y2 - y1) / height)))
  else .error "Invalid bbox"

end Rasterize

namespace GeometryFileSource

/-- `f.iloc[:n]` for an integer `n`: a nonnegative `n` keeps the first `n`
rows, a negative `n` drops the last `|n|` rows. -/
def ilocUpTo {α : Type} (n : Int) (rows : List α) : List α :=
  if 0 ≤ n then rows.take n.toNat
  else rows.take (rows.length - (-n).toNat)

/-- The limit handling at the end of `GeometryFileSource.process` for the
`intersects`/`centroid` modes, with Python truthiness transcribed:
`if request.get("limit") and len(f) > request["limit"]` truncates (a
`limit` of `0` is falsy and skips the branch), and
`elif request.get("limit") is None` checks the configured global limit and
raises `RuntimeError` when the row count exceeds it. -/
def applyLimit {α : Type} (rows : List α) (limit : Option Int)
    (globalLimit : Nat) : Except String (List α) :=
  match limit with
  | some l =>
      if l ≠ 0 ∧ (rows.length : Int) > l then .ok (ilocUpTo l rows)
      else .ok rows
  | none =>
      if rows.length > globalLimit then
        .error "The amount of returned geometries exceeded the maximum"
      else .ok rows

end GeometryFileSource

/-- First-match association-list lookup (the alignment-by-index used by
`reindex`; row ids are unique in a feature frame). -/
def alookup {α β : Type} [DecidableEq α] (c : α) : List (α × β) → Option β
  | [] => none
  | p :: ps => if p.1 = c then some p.2 else alookup c ps

namespace Difference

/-- A feature frame: rows keyed by unique id; the geometry of a row is
abstracted as an `Int` handled by the external geometry engine. -/
structure GeoFrame where
  rows : List (Nat × Int)
  deriving Repr, DecidableEq

/-- The data dict arriving at `Difference.process` as `source_data`:
either the `{"empty": True, "projection": p}` literal produced by the
no-geometry shortcut, or an evaluated feature result. -/
inductive SourceData where
  | emptyLit (projection : String)
  | fd (frame : GeoFrame) (projection : String)
  deriving Repr, DecidableEq

/-- The first component of a (source, request) pair returned by
`Difference.get_sources_and_requests`: the source block, the other block,
or an already-final literal. -/
inductive PlanSource where
  | source
  | other
  | literal (sd : SourceData)
  deriving Repr, DecidableEq

/-- A geometry request (the keys `Difference` reads or rewrites). -/
structure GeomRequest where
  mode : String
  projection : String
  geometry : Option (Int × Int × Int × Int)
  deriving Repr, DecidableEq

/-- `Difference.get_sources_and_requests`: extent requests pass through to
the source; otherwise the source's extent (resolved by a metadata
`get_data` call, passed here as `sourceExtent`) either shortcuts to a
single literal pair with the no-request marker (`none`), or restricts the
request sent to `other` to the bounding box of the source's extent. -/
def getSourcesAndRequests (request : GeomRequest)
    (sourceExtent : Option (Int × Int × Int × Int)) :
    List (PlanSource × Option GeomRequest) :=
  if request.mode = "extent" then [(.source, some request)]
  else
    match sourceExtent with
    | none => [(.literal (.emptyLit request.projection), none)]
    | some extent =>
        [(.source, some request),
         (.other, some { request with geometry := some extent })]

/-- `Difference.process`: with no `other_data`, the empty literal becomes an
empty feature collection with its projection and a feature result passes
through; with `other_data`, an empty side passes `source_data` through,
and otherwise `b`'s geometry column is reindexed on `a`'s ids and
subtracted per row, rows of `a` missing in `b` being re-inserted unchanged
(`A - None = A`).  The geometry engine's difference is the abstract
`gdiff`.  (A `source_data` without a features table would raise `KeyError`
in the source; that branch is unreachable from the plan.) -/
def process (gdiff : Int → Int → Int) (source_data : SourceData)
    (other_data : Option GeoFrame) : Except String SourceData :=
  match other_data with
  | none =>
      match source_data with
      | .emptyLit p => .ok (.fd ⟨[]⟩ p)
      | .fd _ _ => .ok source_data
  | some b =>
      match source_data with
      | .emptyLit _ => .error "KeyError: features"
      | .fd a p =>
          if a.rows.length = 0 ∨ b.rows.length = 0 then .ok (.fd a p)
          else .ok (.fd ⟨a.rows.map fun r =>
              match alookup r.1 b.rows with
              | none => r
              | some h => (r.1, gdiff r.2 h)⟩ p)

end Difference

namespace SetSeries

/-- An evaluated feature table: a row index and named columns, each column
aligned with the index. -/
structure DataFrame where
  index : List Int
  cols : List (String × List Int)
  deriving Repr, DecidableEq

/-- A feature-mode response: `{"features": ..., "projection": ...}`,
`features = none` when the response lacks a features table. -/
structure FeatureResult where
  features : Option DataFrame
  projection : String
  deriving Repr, DecidableEq

/-- `features[column] = value`: overwrite the column when it exists,
append it otherwise. -/
def setColumn (cols : List (String × List Int)) (c : String)
    (v : List Int) : List (String × List Int) :=
  if cols.any fun p => decide (p.1 = c) then
    cols.map fun p => if p.1 = c then (c, v) else p
  else cols ++ [(c, v)]

/-- `SetSeriesBlock.columns`: `self.source.columns | set(self.args[1::2])`. -/
def columns (sourceColumns : Finset String) (names : List String) :
    Finset String :=
  sourceColumns ∪ names.toFinset

/-- `SetSeriesBlock.process`: when the data has no features table or zero
rows it is returned unchanged; otherwise the features are copied and each
(column, value) pair is assigned in order. -/
def process (data : FeatureResult) (pairs : List (String × List Int)) :
    FeatureResult :=
  match data.features with
  | none => data
  | some df =>
      if df.index.length = 0 then data
      else
        { features := some
            { index := df.index
              cols := pairs.foldl (fun cs p => setColumn cs p.1 p.2) df.cols }
          projection := data.projection }

end SetSeries

/-- A scalar-series node: a kind tag and an ordered argument list whose
elements are child nodes or opaque scalar literals. -/
inductive SeriesNode where
  | mk (kind : String) (args : List (SeriesNode ⊕ Int))

/-- The `Multiply` node factory: both arguments may be nodes or scalar
literals. -/
def Multiply (a b : SeriesNode ⊕ Int) : SeriesNode :=
  .mk "Multiply" [a, b]

/-- `SeriesBlock.__neg__`: `return Multiply(self, -1)`. -/
def SeriesNode.neg (a : SeriesNode) : SeriesNode :=
  Multiply (.inl a) (.inr (-1))

/-! ## Claim theorems -/

/-- C1: `Classify` with bin edges `[0,10,20]` and left-closed/right-open
intervals (`right = false`) maps the input values `[-5,0,5,10,25]` to the
bucket indices `[0,1,1,2,3]`; every input cell equal to the raster's
no-data value maps to the dedicated fill index 255, which also becomes the
output no-data value and is distinct from all valid bucket indices 0..3. -/
theorem classify_c1 :
    (Classify.process [0, 10, 20] false ⟨[-5, 0, 5, 10, 25], -9999⟩).values
        = [0, 1, 1, 2, 3]
    ∧ (∀ (d : RasterData) (i : Nat), d.values[i]? = some d.no_data_value →
        (Classify.process [0, 10, 20] false d).values[i]? = some 255)
    ∧ (∀ d : RasterData,
        (Classify.process [0, 10, 20] false d).no_data_value = 255)
    ∧ (255 : Int) ∉ ([0, 1, 2, 3] : List Int) := by
  refine ⟨by decide, ?_, fun d => rfl, by decide⟩
  intro d i h
  simp only [Classify.process, List.getElem?_map, h, Option.map_some']
  norm_num [get_dtype_max, get_uint_dtype]

/-- Witness for C1: a raster whose single cell equals the no-data value
`-9999` classifies to the fill index 255. -/
theorem classify_c1_witness :
    (Classify.process [0, 10, 20] false ⟨[-9999], -9999⟩).values[0]?
      = some 255 :=
  classify_c1.2.1 ⟨[-9999], -9999⟩ 0 rfl

/-- C2: `Reclassify` with mapping `{1→10, 2→20}` on cells `[1,2,3]` (no
cell equal to the no-data value `-9999`): with `select = false` the result
is `[10,20,3]`, with `select = true` it is `[10,20,FILL]` where `FILL` is
the sentinel fill value (the maximum of the 64-bit signed target dtype);
in both cases the returned no-data value is that sentinel. -/
theorem reclassify_c2 :
    Reclassify.process [(1, 10), (2, 20)] false (get_dtype_max_signed 64)
        ⟨[1, 2, 3], -9999⟩
      = ⟨[10, 20, 3], get_dtype_max_signed 64⟩
    ∧ Reclassify.process [(1, 10), (2, 20)] true (get_dtype_max_signed 64)
        ⟨[1, 2, 3], -9999⟩
      = ⟨[10, 20, get_dtype_max_signed 64], get_dtype_max_signed 64⟩ := by
  decide

/-- C5: the bin-list validation of `Classify.__init__` raises on the
strictly descending list `[20,10,0]` (whose successive differences are all
negative, i.e. it is strictly monotonic) because the `not` in
`not np.all(bins_diff > 0) or np.all(bins_diff < 0)` binds only the first
conjunct, while the strictly ascending list `[0,10,20]` is accepted. -/
theorem classify_init_c5 :
    Classify.initRaises [20, 10, 0] = true
    ∧ (npDiff [20, 10, 0]).all (fun d => decide (d < 0)) = true
    ∧ Classify.initRaises [0, 10, 20] = false := by
  decide

/-- C7: `SeriesBlock.__neg__` constructs exactly the node
`Multiply(a, -1)` — the same kind with the scalar literal `-1` as second
argument — so any evaluation function gives `-a` and `Multiply(a, -1)` the
same result on every request. -/
theorem series_neg_c7 (a : SeriesNode)
    (eval : SeriesNode → Nat → List Int) (r : Nat) :
    SeriesNode.neg a = Multiply (Sum.inl a) (Sum.inr (-1))
    ∧ eval (SeriesNode.neg a) r
        = eval (Multiply (Sum.inl a) (Sum.inr (-1))) r :=
  ⟨rfl, rfl⟩

/-- C10: `Step.process` never remaps no-data cells: every cell equal to
the input's no-data value is still the no-data value in the output (even
when it equals the location value), and the output's no-data value equals
the input's. -/
theorem step_c10 (left right location at_ : Int) (d : RasterData) (i : Nat)
    (h : d.values[i]? = some d.no_data_value) :
    (Step.process left right location at_ d).values[i]? =
        some d.no_data_value
    ∧ (Step.process left right location at_ d).no_data_value =
        d.no_data_value := by
  refine ⟨?_, rfl⟩
  simp only [Step.process, List.getElem?_map, h, Option.map_some']
  simp

/-- Witness for C10: a raster whose single cell is the no-data value
`-9999`, with the location parameter also `-9999`, keeps that cell at
`-9999` and keeps the no-data value. -/
theorem step_c10_witness :
    (Step.process 0 1 (-9999) 5 ⟨[-9999], -9999⟩).values[0]? = some (-9999)
    ∧ (Step.process 0 1 (-9999) 5 ⟨[-9999], -9999⟩).no_data_value = -9999 :=
  step_c10 0 1 (-9999) 5 ⟨[-9999], -9999⟩ 0 rfl

/-- C3: in a feature-mode evaluation of `Difference(A, B)` with both
resolved feature sets non-empty, `process` succeeds, and each row of A
whose id has no counterpart in B appears in the output with its geometry
unchanged, while a row with a counterpart gets the geometric difference of
the two geometries. -/
theorem difference_c3 (gdiff : Int → Int → Int) (a b : Difference.GeoFrame)
    (p : String) (ha : a.rows ≠ []) (hb : b.rows ≠ []) (i : Nat) (g : Int)
    (hmem : (i, g) ∈ a.rows) :
    ∃ res : Difference.GeoFrame,
      Difference.process gdiff (.fd a p) (some b) = .ok (.fd res p)
      ∧ (alookup i b.rows = none → (i, g) ∈ res.rows)
      ∧ (∀ h, alookup i b.rows = some h → (i, gdiff g h) ∈ res.rows) := by
  have hlen : ¬(a.rows.length = 0 ∨ b.rows.length = 0) := by
    simp only [List.length_eq_zero, not_or]
    exact ⟨ha, hb⟩
  refine ⟨⟨a.rows.map fun r =>
      match alookup r.1 b.rows with
      | none => r
      | some h => (r.1, gdiff r.2 h)⟩, ?_, ?_, ?_⟩
  · simp only [Difference.process, if_neg hlen]
  · intro hnone
    exact List.mem_map.mpr ⟨(i, g), hmem, by simp [hnone]⟩
  · intro h hsome
    exact List.mem_map.mpr ⟨(i, g), hmem, by simp [hsome]⟩

/-- Witness for C3: A has rows 1 and 2, B only row 2; row 1 passes through
unchanged and row 2 gets the engine difference (here subtraction). -/
theorem difference_c3_witness :
    ∃ res : Difference.GeoFrame,
      Difference.process (fun x y => x - y)
          (.fd ⟨[(1, 100), (2, 200)]⟩ "EPSG:28992") (some ⟨[(2, 50)]⟩)
        = .ok (.fd res "EPSG:28992")
      ∧ (alookup 1 ([(2, 50)] : List (Nat × Int)) = none →
          (1, 100) ∈ res.rows)
      ∧ (∀ h, alookup 1 ([(2, 50)] : List (Nat × Int)) = some h →
          (1, 100 - h) ∈ res.rows) :=
  difference_c3 (fun x y => x - y) ⟨[(1, 100), (2, 200)]⟩ ⟨[(2, 50)]⟩
    "EPSG:28992" (by decide) (by decide) 1 100 (by decide)

/-- C9: in feature mode, when the source's extent resolves to `None`,
`Difference.get_sources_and_requests` returns a single literal pair
carrying the no-request marker, no pair addresses the other block, and
`process` turns the literal into an empty feature collection carrying the
request's projection. -/
theorem difference_c9 (req : Difference.GeomRequest)
    (gdiff : Int → Int → Int) (hmode : req.mode ≠ "extent") :
    Difference.getSourcesAndRequests req none
        = [(.literal (.emptyLit req.projection), none)]
    ∧ (∀ pr ∈ Difference.getSourcesAndRequests req none,
        pr.1 ≠ Difference.PlanSource.other ∧ pr.2 = none)
    ∧ Difference.process gdiff (.emptyLit req.projection) none
        = .ok (.fd ⟨[]⟩ req.projection) := by
  have h1 : Difference.getSourcesAndRequests req none
      = [(.literal (.emptyLit req.projection), none)] := by
    simp only [Difference.getSourcesAndRequests, if_neg hmode]
  refine ⟨h1, ?_, rfl⟩
  rw [h1]
  intro pr hpr
  rw [List.mem_singleton] at hpr
  subst hpr
  exact ⟨by simp, rfl⟩

/-- Witness for C9: an intersects-mode request with a `None` source
extent. -/
theorem difference_c9_witness :
    Difference.getSourcesAndRequests ⟨"intersects", "EPSG:4326", none⟩ none
        = [(.literal (.emptyLit "EPSG:4326"), none)]
    ∧ (∀ pr ∈ Difference.getSourcesAndRequests
          ⟨"intersects", "EPSG:4326", none⟩ none,
        pr.1 ≠ Difference.PlanSource.other ∧ pr.2 = none)
    ∧ Difference.process (fun x y => x - y) (.emptyLit "EPSG:4326") none
        = .ok (.fd ⟨[]⟩ "EPSG:4326") :=
  difference_c9 ⟨"intersects", "EPSG:4326", none⟩ (fun x y => x - y)
    (by decide)

/-- C4 counterexample: the claim as stated fails for the explicit limit 0.
Because `request.get("limit")` is a Python truthiness test, an explicit
`limit = 0` skips both the truncation branch and the global-limit branch:
two rows come back even though the claim promises at most `limit = 0`. -/
theorem gfs_limit_c4_counterexample :
    GeometryFileSource.applyLimit ([10, 20] : List Int) (some 0) 5
        = .ok [10, 20]
    ∧ ¬((([10, 20] : List Int).length : Int) ≤ 0) :=
  ⟨rfl, by decide⟩

/-- C4 (amended): for a positive explicit limit, `GeometryFileSource`'s
limit handling never errors and returns exactly the first `limit` rows (at
most `limit` rows); without an explicit limit it raises the resource-limit
error exactly when the row count exceeds the configured global limit. -/
theorem gfs_limit_c4 {α : Type} (rows : List α) (globalLimit : Nat)
    (l : Int) (hl : 0 < l) :
    (GeometryFileSource.applyLimit rows (some l) globalLimit
        = .ok (rows.take l.toNat)
      ∧ ((rows.take l.toNat).length : Int) ≤ l)
    ∧ ((∃ e, GeometryFileSource.applyLimit rows none globalLimit
          = .error e)
        ↔ rows.length > globalLimit) := by
  refine ⟨⟨?_, ?_⟩, ?_⟩
  · by_cases hgt : (rows.length : Int) > l
    · have hcond : l ≠ 0 ∧ (rows.length : Int) > l := ⟨by omega, hgt⟩
      simp only [GeometryFileSource.applyLimit, if_pos hcond]
      unfold GeometryFileSource.ilocUpTo
      rw [if_pos (le_of_lt hl)]
    · have hcond : ¬(l ≠ 0 ∧ (rows.length : Int) > l) := fun hc => hgt hc.2
      simp only [GeometryFileSource.applyLimit, if_neg hcond]
      have hle : rows.length ≤ l.toNat := by omega
      rw [List.take_of_length_le hle]
  · have := List.length_take_le l.toNat rows
    omega
  · by_cases hg : rows.length > globalLimit
    · simp [GeometryFileSource.applyLimit, hg]
    · simp [GeometryFileSource.applyLimit, hg]

/-- Witness for C4: three rows with explicit limit 2 truncate to the first
two rows without error; with no explicit limit and a global limit of 1,
the error is raised exactly because 3 > 1. -/
theorem gfs_limit_c4_witness :
    (GeometryFileSource.applyLimit ([1, 2, 3] : List Int) (some 2) 1
        = .ok (([1, 2, 3] : List Int).take (2 : Int).toNat)
      ∧ ((([1, 2, 3] : List Int).take (2 : Int).toNat).length : Int) ≤ 2)
    ∧ ((∃ e, GeometryFileSource.applyLimit ([1, 2, 3] : List Int) none 1
          = .error e)
        ↔ ([1, 2, 3] : List Int).length > 1) :=
  gfs_limit_c4 [1, 2, 3] 1 2 (by decide)

/-- C8 counterexample: the degenerate point window `(0, 0, 0, 0)` — zero
width and zero height — is accepted by the vals-mode plan of `Rasterize`
with `min_size = None` instead of raising. -/
theorem rasterize_c8_counterexample :
    ((0 : Rat) - 0) * ((0 : Rat) - 0) = 0
    ∧ Rasterize.getSourcesAndRequestsVals 0 0 0 0 256 256 = .ok none := by
  constructor
  · norm_num
  · simp [Rasterize.getSourcesAndRequestsVals]

/-- C8 (amended): in the vals-mode plan of `Rasterize`, a reversed
bounding box (`x1 > x2` or `y1 > y2`) raises before building any
(source, request) pair; every point window (`x1 = x2` and `y1 = y2`) is
accepted with `min_size = None`; and every non-point zero-extent window
(`x1 = x2` or `y1 = y2`, but not both) raises as well. -/
theorem rasterize_c8 (x1 y1 x2 y2 width height : Rat) :
    (x1 > x2 ∨ y1 > y2 →
      Rasterize.getSourcesAndRequestsVals x1 y1 x2 y2 width height
        = .error "Invalid bbox")
    ∧ (x1 = x2 ∧ y1 = y2 →
      Rasterize.getSourcesAndRequestsVals x1 y1 x2 y2 width height
        = .ok none)
    ∧ ((x1 = x2 ∨ y1 = y2) → ¬(x1 = x2 ∧ y1 = y2) →
      Rasterize.getSourcesAndRequestsVals x1 y1 x2 y2 width height
        = .error "Invalid bbox") := by
  refine ⟨?_, ?_, ?_⟩
  · rintro (h | h)
    · have h1 : ¬(x2 = x1 ∧ y2 = y1) := fun hc => absurd hc.1 (ne_of_lt h)
      have h2 : ¬(x1 < x2 ∧ y1 < y2) := fun hc => absurd hc.1 (lt_asymm h)
      simp [Rasterize.getSourcesAndRequestsVals, h1, h2]
    · have h1 : ¬(x2 = x1 ∧ y2 = y1) := fun hc => absurd hc.2 (ne_of_lt h)
      have h2 : ¬(x1 < x2 ∧ y1 < y2) := fun hc => absurd hc.2 (lt_asymm h)
      simp [Rasterize.getSourcesAndRequestsVals, h1, h2]
  · rintro ⟨hx, hy⟩
    simp [Rasterize.getSourcesAndRequestsVals, hx, hy]
  · intro hdeg hnp
    have h1 : ¬(x2 = x1 ∧ y2 = y1) := fun hc => hnp ⟨hc.1.symm, hc.2.symm⟩
    have h2 : ¬(x1 < x2 ∧ y1 < y2) := by
      rcases hdeg with h | h
      · exact fun hc => absurd hc.1 (by rw [h]; exact lt_irrefl x2)
      · exact fun hc => absurd hc.2 (by rw [h]; exact lt_irrefl y2)
    simp [Rasterize.getSourcesAndRequestsVals, h1, h2]

/-- Witness for C8: the reversed box `(5, 0, 1, 10)` raises, the
non-origin point window `(3, 4, 3, 4)` is accepted with `min_size = None`,
and the vertical line window `(3, 0, 3, 10)` raises. -/
theorem rasterize_c8_witness :
    Rasterize.getSourcesAndRequestsVals 5 0 1 10 256 256
        = .error "Invalid bbox"
    ∧ Rasterize.getSourcesAndRequestsVals 3 4 3 4 256 256 = .ok none
    ∧ Rasterize.getSourcesAndRequestsVals 3 0 3 10 256 256
        = .error "Invalid bbox" :=
  ⟨(rasterize_c8 5 0 1 10 256 256).1 (Or.inl (by norm_num)),
   (rasterize_c8 3 4 3 4 256 256).2.1 ⟨rfl, rfl⟩,
   (rasterize_c8 3 0 3 10 256 256).2.2 (Or.inl rfl) (by norm_num)⟩

/-! Helper lemmas about `setColumn` for the SetSeriesBlock claim. -/

lemma alookup_map_replace_eq (cols : List (String × List Int)) (c : String)
    (v : List Int) (h : (cols.any fun p => decide (p.1 = c)) = true) :
    alookup c (cols.map fun p => if p.1 = c then (c, v) else p) = some v := by
  induction cols with
  | nil => simp at h
  | cons q qs ih =>
    by_cases hq : q.1 = c
    · simp [alookup, hq]
    · have h' : (qs.any fun p => decide (p.1 = c)) = true := by
        simp only [List.any_cons, Bool.or_eq_true, decide_eq_true_eq] at h
        rcases h with h | h
        · exact absurd h hq
        · exact h
      simp [alookup, hq, ih h']

lemma alookup_map_replace_ne (cols : List (String × List Int))
    (c c' : String) (v : List Int) (h : c' ≠ c) :
    alookup c' (cols.map fun p => if p.1 = c then (c, v) else p)
      = alookup c' cols := by
  induction cols with
  | nil => rfl
  | cons q qs ih =>
    by_cases hq : q.1 = c
    · have : q.1 ≠ c' := by rw [hq]; exact fun e => h e.symm
      simp [alookup, hq, this, Ne.symm h, ih]
    · simp only [List.map_cons, if_neg hq]
      by_cases hq' : q.1 = c'
      · simp [alookup, hq']
      · simp [alookup, hq', ih]

lemma alookup_append_single (cols : List (String × List Int))
    (c c' : String) (v : List Int) :
    alookup c' (cols ++ [(c, v)]) =
      match alookup c' cols with
      | some w => some w
      | none => if c' = c then some v else none := by
  induction cols with
  | nil =>
    simp only [List.nil_append, alookup]
    by_cases hc : c = c'
    · simp [hc]
    · have hc' : ¬(c' = c) := fun e => hc e.symm
      simp [hc, hc']
  | cons q qs ih =>
    by_cases hq : q.1 = c'
    · simp [alookup, hq]
    · simp [alookup, hq, ih]

lemma alookup_none_of_any_false (cols : List (String × List Int))
    (c : String) (h : (cols.any fun p => decide (p.1 = c)) = false) :
    alookup c cols = none := by
  induction cols with
  | nil => rfl
  | cons q qs ih =>
    simp only [List.any_cons, Bool.or_eq_false_iff, decide_eq_false_iff_not]
      at h
    simp [alookup, h.1, ih h.2]

lemma alookup_setColumn (cols : List (String × List Int)) (c c' : String)
    (v : List Int) :
    alookup c' (SetSeries.setColumn cols c v) =
      if c' = c then some v else alookup c' cols := by
  unfold SetSeries.setColumn
  by_cases hany : (cols.any fun p => decide (p.1 = c)) = true
  · rw [if_pos hany]
    by_cases hc : c' = c
    · subst hc; rw [if_pos rfl, alookup_map_replace_eq _ _ _ hany]
    · rw [if_neg hc, alookup_map_replace_ne _ _ _ _ hc]
  · have hfalse : (cols.any fun p => decide (p.1 = c)) = false :=
      Bool.eq_false_iff.mpr hany
    rw [if_neg hany, alookup_append_single]
    by_cases hc : c' = c
    · subst hc
      rw [alookup_none_of_any_false _ _ hfalse]
    · cases halo : alookup c' cols <;> simp [hc]

lemma alookup_foldl_setColumn (pairs : List (String × List Int))
    (cols : List (String × List Int)) (c : String) :
    alookup c (pairs.foldl (fun cs p => SetSeries.setColumn cs p.1 p.2) cols)
      = match alookup c pairs.reverse with
        | some w => some w
        | none => alookup c cols := by
  induction pairs generalizing cols with
  | nil => rfl
  | cons q qs ih =>
    obtain ⟨n, v⟩ := q
    simp only [List.foldl_cons, List.reverse_cons]
    rw [ih, alookup_append_single]
    cases h : alookup c qs.reverse with
    | some w => rfl
    | none =>
      rw [alookup_setColumn]
      by_cases hc : c = n <;> simp [hc]

/-- C6: `SetSeriesBlock`'s declared column set is the source's columns
united with the assigned names; processing a result without a features
table or with zero rows returns it unchanged; and on a non-empty result
the rows (index) are copied while exactly the named columns are
overwritten/added with the assigned values (the last assignment to a name
wins, all other columns are untouched). -/
theorem setseries_c6 (srcCols : Finset String) (names : List String)
    (data : SetSeries.FeatureResult) (pairs : List (String × List Int)) :
    (∀ c, c ∈ SetSeries.columns srcCols names ↔ c ∈ srcCols ∨ c ∈ names)
    ∧ (data.features = none → SetSeries.process data pairs = data)
    ∧ (∀ df, data.features = some df → df.index = [] →
        SetSeries.process data pairs = data)
    ∧ (∀ df, data.features = some df → df.index ≠ [] →
        ∃ df', SetSeries.process data pairs = ⟨some df', data.projection⟩
          ∧ df'.index = df.index
          ∧ ∀ c, alookup c df'.cols =
              match alookup c pairs.reverse with
              | some w => some w
              | none => alookup c df.cols) := by
  refine ⟨?_, ?_, ?_, ?_⟩
  · intro c
    simp [SetSeries.columns]
  · intro h
    simp only [SetSeries.process, h]
  · intro df hdf hidx
    simp [SetSeries.process, hdf, hidx]
  · intro df hdf hidx
    have hlen : ¬(df.index.length = 0) := by
      simpa [List.length_eq_zero] using hidx
    refine ⟨⟨df.index,
        pairs.foldl (fun cs p => SetSeries.setColumn cs p.1 p.2) df.cols⟩,
      ?_, rfl, ?_⟩
    · simp only [SetSeries.process, hdf, if_neg hlen]
    · intro c
      exact alookup_foldl_setColumn pairs df.cols c

/-- Witness for C6: a one-row frame with column "a"; assigning column "c"
keeps the index, adds "c" with its value, and leaves "a" unchanged. -/
theorem setseries_c6_witness :
    ∃ df', SetSeries.process ⟨some ⟨[1], [("a", [5])]⟩, "EPSG:4326"⟩
          [("c", [7])]
        = ⟨some df', "EPSG:4326"⟩
      ∧ df'.index = [1]
      ∧ ∀ c, alookup c df'.cols =
          match alookup c ([("c", [7])] : List (String × List Int)).reverse
            with
          | some w => some w
          | none => alookup c [("a", [5])] :=
  (setseries_c6 {"a"} ["c"] ⟨some ⟨[1], [("a", [5])]⟩, "EPSG:4326"⟩
      [("c", [7])]).2.2.2 ⟨[1], [("a", [5])]⟩ rfl (by decide)

end DaskGeomodeling
